import Mathlib

/-!
Verification development for the daneel assistant pipeline.

The Python source (src/daneel) is shallowly embedded:
* the run state (`GraphState`, a `TypedDict` with `total=False`) becomes a
  structure whose fields are `Option`-valued (`none` = key absent);
* Python dictionaries with string keys become association lists;
* floats (relevance scores, `time.time()` readings) become rationals: the
  code never does float arithmetic on them, it only compares and stores them;
* asynchronous collaborator calls (memory / vector / graph stores, tools)
  become deterministic response functions carried in a `NodeContext`;
  `time.time()` becomes the context field `now` (successive readings inside
  one node are collapsed to one clock value; no claim depends on two
  readings differing), and `hashlib.sha256(...)[:12]` becomes the context
  field `shortHash` (its results only flow into collaborator calls, never
  into the pipeline state);
* a node that can raise (a `KeyError` on a missing required state key)
  returns `Except String GraphState`.
-/

/-- Substring test on character lists: true when `needle` occurs contiguously
inside the second list.  This models the Python `needle in hay` test on
strings. -/
def infixOf (needle : List Char) : List Char → Bool
  | [] => needle.isEmpty
  | c :: rest => needle.isPrefixOf (c :: rest) || infixOf needle rest

/-- Model of Python `s.lower()`: the lowered text, kept as a character list
because every use in the source immediately feeds substring tests. -/
def pyLower (s : String) : List Char := s.toList.map Char.toLower

/-- Model of Python `needle in s.lower()` where `hay` is an already lowered
query. -/
def strContains (hay : List Char) (needle : String) : Bool :=
  infixOf needle.toList hay

/-- Model of Python `s.strip()`: drop whitespace from both ends. -/
def pyStrip (s : String) : String :=
  ⟨((s.toList.dropWhile Char.isWhitespace).reverse.dropWhile Char.isWhitespace).reverse⟩

/-- Python values stored in string-keyed dictionaries (metadata, tool
arguments and tool results). -/
inductive Value where
  | null : Value
  | vbool : Bool → Value
  | num : Rat → Value
  | str : String → Value
  | list : List Value → Value
  | dict : List (String × Value) → Value

/-- Python `Optional[str]` rendered as a `Value` (used where the source stores
`state.get(...)`, which yields `None` when the key is absent). -/
def optStrVal : Option String → Value
  | none => Value.null
  | some s => Value.str s

/-- models.InteractionKind (a `str` enum). -/
inductive InteractionKind where
  | store_only
  | transform_and_store
  | act_now
  | act_and_store
  deriving DecidableEq, BEq

/-- String payload of the `str` enum member, as read by `.value` in the
conditional-edge routers. -/
def InteractionKind.value : InteractionKind → String
  | .store_only => "store_only"
  | .transform_and_store => "transform_and_store"
  | .act_now => "act_now"
  | .act_and_store => "act_and_store"

/-- models.RetrievalIntent (a `str` enum). -/
inductive RetrievalIntent where
  | memory_personal
  | fact_lookup
  | multi_hop
  | mixed
  deriving DecidableEq, BEq

/-- models.RetrievalChunk. -/
structure RetrievalChunk where
  content : String
  score : Rat
  source : String
  metadata : Value

/-- models.PlannedToolCall; `arguments` is the keyword-argument dictionary. -/
structure PlannedToolCall where
  tool_name : String
  arguments : List (String × Value)

/-- models.MemobaseHit. -/
structure MemobaseHit where
  content : String
  score : Rat
  topic : String
  type : String
  id : String
  metadata : Value

/-- models.RagdollHit (also the shape of models.GraphDoc). -/
structure RagdollHit where
  text : String
  score : Rat
  metadata : Value

/-- models.MemobaseRecord. -/
structure MemobaseRecord where
  id : String
  user_id : String
  topic : String
  type : String
  content : String
  metadata : Value
  created_at : Rat
  last_seen_at : Rat
  strength : Rat
  expires_at : Option Rat

/-- models.GraphState (`TypedDict, total=False`): every field is optional,
`none` meaning the key is absent from the dictionary. -/
structure GraphState where
  user_id : Option String := none
  query : Option String := none
  history : Option (List Value) := none
  interaction_kind : Option InteractionKind := none
  ingestion_type : Option String := none
  topic_candidates : Option (List String) := none
  primary_topic : Option String := none
  topic_confidence : Option Rat := none
  retrieval_intent : Option RetrievalIntent := none
  need_memobase : Option Bool := none
  need_vector : Option Bool := none
  need_graph : Option Bool := none
  memobase_results : Option (List RetrievalChunk) := none
  vector_results : Option (List RetrievalChunk) := none
  graph_results : Option (List RetrievalChunk) := none
  final_results : Option (List RetrievalChunk) := none
  planned_tools : Option (List PlannedToolCall) := none
  tool_results : Option (List (String × Value)) := none
  answer : Option String := none
  metadata : Option (List (String × Value)) := none

/-- Field names of the `GraphState` dictionary, for key-generic statements
(the guard wrapper reads a flag by name; the key-monotonicity invariant
quantifies over keys). -/
inductive FieldKey where
  | user_id
  | query
  | history
  | interaction_kind
  | ingestion_type
  | topic_candidates
  | primary_topic
  | topic_confidence
  | retrieval_intent
  | need_memobase
  | need_vector
  | need_graph
  | memobase_results
  | vector_results
  | graph_results
  | final_results
  | planned_tools
  | tool_results
  | answer
  | metadata
  deriving DecidableEq

/-- Whether the named key is present in the state dictionary. -/
def present (s : GraphState) : FieldKey → Bool
  | .user_id => s.user_id.isSome
  | .query => s.query.isSome
  | .history => s.history.isSome
  | .interaction_kind => s.interaction_kind.isSome
  | .ingestion_type => s.ingestion_type.isSome
  | .topic_candidates => s.topic_candidates.isSome
  | .primary_topic => s.primary_topic.isSome
  | .topic_confidence => s.topic_confidence.isSome
  | .retrieval_intent => s.retrieval_intent.isSome
  | .need_memobase => s.need_memobase.isSome
  | .need_vector => s.need_vector.isSome
  | .need_graph => s.need_graph.isSome
  | .memobase_results => s.memobase_results.isSome
  | .vector_results => s.vector_results.isSome
  | .graph_results => s.graph_results.isSome
  | .final_results => s.final_results.isSome
  | .planned_tools => s.planned_tools.isSome
  | .tool_results => s.tool_results.isSome
  | .answer => s.answer.isSome
  | .metadata => s.metadata.isSome

/-- Python truthiness of `state.get(key)`: an absent key gives `None`
(falsy); a boolean is itself; strings, lists and dictionaries are truthy
when nonempty; numbers are truthy when nonzero; enum members (nonempty
strings) are always truthy. -/
def truthyAt (s : GraphState) : FieldKey → Bool
  | .user_id => (s.user_id.getD "") != ""
  | .query => (s.query.getD "") != ""
  | .history => !(s.history.getD []).isEmpty
  | .interaction_kind => s.interaction_kind.isSome
  | .ingestion_type => (s.ingestion_type.getD "") != ""
  | .topic_candidates => !(s.topic_candidates.getD []).isEmpty
  | .primary_topic => (s.primary_topic.getD "") != ""
  | .topic_confidence => decide ((s.topic_confidence.getD 0) ≠ 0)
  | .retrieval_intent => s.retrieval_intent.isSome
  | .need_memobase => s.need_memobase.getD false
  | .need_vector => s.need_vector.getD false
  | .need_graph => s.need_graph.getD false
  | .memobase_results => !(s.memobase_results.getD []).isEmpty
  | .vector_results => !(s.vector_results.getD []).isEmpty
  | .graph_results => !(s.graph_results.getD []).isEmpty
  | .final_results => !(s.final_results.getD []).isEmpty
  | .planned_tools => !(s.planned_tools.getD []).isEmpty
  | .tool_results => !(s.tool_results.getD []).isEmpty
  | .answer => (s.answer.getD "") != ""
  | .metadata => !(s.metadata.getD []).isEmpty

/-- Signature of a registered tool: a deterministic response function from
the keyword-argument dictionary to the returned value (tooling.ToolCallable
with a fixed response). -/
def ToolFn : Type := List (String × Value) → Value

/-- tooling.create_task_tool. -/
def create_task_tool : ToolFn := fun args =>
  Value.dict [("status", Value.str "created"), ("title", (args.lookup "title").getD Value.null)]

/-- tooling.send_email_tool. -/
def send_email_tool : ToolFn := fun args =>
  Value.dict [("status", Value.str "sent"), ("body", (args.lookup "body").getD Value.null)]

/-- tooling.schedule_meeting_tool (keyword `topic` defaults to "meeting"). -/
def schedule_meeting_tool : ToolFn := fun args =>
  Value.dict [("status", Value.str "scheduled"), ("topic", (args.lookup "topic").getD (Value.str "meeting"))]

/-- tooling.trigger_n8n_flow. -/
def trigger_n8n_flow : ToolFn := fun args =>
  Value.dict [("status", Value.str "triggered"),
    ("flow", (args.lookup "flow_name").getD (Value.str "default")),
    ("payload", (args.lookup "payload").getD (Value.dict []))]

/-- tooling.default_tool_registry: the registry is a name-keyed dictionary. -/
def default_tool_registry : List (String × ToolFn) :=
  [("create_task", create_task_tool),
   ("send_email", send_email_tool),
   ("schedule_meeting", schedule_meeting_tool),
   ("trigger_n8n_flow", trigger_n8n_flow)]

/-- nodes.NodeContext together with the deterministic collaborator responses
the run observes: search responses for the three stores, the tool registry,
the clock (`time.time()`) and the id hash.  Store writes return no data, so
they need no response function.  The field `collectionRoot` carries the
source field `vector_collection_` + `prefix` (renamed here). -/
structure NodeContext where
  memobaseSearch : String → String → Option String → Nat → List MemobaseHit
  ragdollSearch : String → List String → Nat → List RagdollHit
  graphQuery : String → List String → Nat → List RagdollHit
  tools : List (String × ToolFn)
  collectionRoot : String := "daneel"
  now : Rat
  shortHash : String → String

/-- nodes.classify_interaction. -/
def classify_interaction (s : GraphState) : GraphState :=
  let query := pyLower (s.query.getD "")
  let kind : InteractionKind :=
    if strContains query "store only" then .store_only
    else if strContains query "store" && strContains query "summarize" then .transform_and_store
    else if strContains query "remind" || strContains query "now" then .act_now
    else .act_and_store
  { s with interaction_kind := some kind }

/-- nodes.normalise_input. -/
def normalise_input (s : GraphState) : GraphState :=
  { s with query := some (pyStrip (s.query.getD "")) }

/-- nodes.detect_ingestion_type. -/
def detect_ingestion_type (s : GraphState) : GraphState :=
  let query := pyLower (s.query.getD "")
  let ingestion : String :=
    if strContains query "task" || strContains query "todo" then "task"
    else if strContains query "call" || strContains query "meeting" then "transcript"
    else if strContains query "contact" then "contact"
    else "note"
  { s with ingestion_type := some ingestion }

/-- Python `len` on a string: the number of characters. -/
def pyLen (s : String) : Nat := s.toList.length

/-- nodes.transform_for_storage; `time.time()` is the context clock. -/
def transform_for_storage (now : Rat) (s : GraphState) : GraphState :=
  let text := s.query.getD ""
  let truncated := (text.toList.take 500).asString
  let summary := if pyLen text ≤ 500 then truncated else truncated ++ "..."
  let md : List (String × Value) :=
    [("summary", Value.str summary),
     ("length", Value.num (pyLen text)),
     ("created_at", Value.num now),
     ("ingestion_type", optStrVal s.ingestion_type)]
  { s with metadata := some md }

/-- nodes.write_memobase: builds the record, writes it (the write response
carries no data) and echoes a one-chunk result list into the state.  Reading
`state["user_id"]` raises a `KeyError` when the key is absent. -/
def write_memobase (ctx : NodeContext) (s : GraphState) : Except String GraphState :=
  match s.user_id with
  | none => .error "user_id"
  | some uid =>
    let record : MemobaseRecord :=
      { id := ctx.shortHash ((s.query.getD "") ++ toString ctx.now)
        user_id := uid
        topic := (s.primary_topic.getD "general")
        type := (s.ingestion_type.getD "note")
        content := s.query.getD ""
        metadata := Value.dict (s.metadata.getD [])
        created_at := ctx.now
        last_seen_at := ctx.now
        strength := 1
        expires_at := none }
    let echo : RetrievalChunk :=
      { content := record.content, score := record.strength,
        source := "memobase", metadata := record.metadata }
    .ok { s with memobase_results := some [echo] }

/-- nodes.write_vector_indexes: calls the vector-store ingest (no response
data) and returns the state unchanged. -/
def write_vector_indexes (ctx : NodeContext) (s : GraphState) : Except String GraphState :=
  let _collection := ctx.collectionRoot ++ "." ++ (s.primary_topic.getD "general")
  let _doc_id := ctx.shortHash (s.query.getD "")
  .ok s

/-- nodes.write_graph: calls the graph-store update (no response data) and
returns the state unchanged. -/
def write_graph (ctx : NodeContext) (s : GraphState) : Except String GraphState :=
  let _doc_id := ctx.shortHash (s.query.getD "")
  .ok s

/-- models.DEFAULT_TOPICS. -/
def DEFAULT_TOPICS : List String := ["work", "projects", "family", "personal_admin"]

/-- nodes.classify_topic. -/
def classify_topic (s : GraphState) : GraphState :=
  let query := pyLower (s.query.getD "")
  let candidates := DEFAULT_TOPICS.filter (fun topic => strContains query topic)
  let primary := candidates.head?.getD "general"
  { s with
    topic_candidates := some (if candidates.isEmpty then ["general"] else candidates)
    primary_topic := some primary
    topic_confidence := some (if candidates.isEmpty then mkRat 35 100 else mkRat 65 100) }

/-- nodes.classify_intent. -/
def classify_intent (s : GraphState) : GraphState :=
  let query := pyLower (s.query.getD "")
  let intent : RetrievalIntent :=
    if ["who", "what", "when", "where"].any (fun word => strContains query word) then .fact_lookup
    else if strContains query "how" || strContains query "why" then .multi_hop
    else if strContains query "remember" || strContains query "recall" then .memory_personal
    else .mixed
  { s with retrieval_intent := some intent }

/-- nodes.route_retrieval; each set-membership test on the intent is written
as a match on the enum. -/
def route_retrieval (s : GraphState) : GraphState :=
  let intent := s.retrieval_intent.getD .memory_personal
  { s with
    need_memobase := some (match intent with | .memory_personal => true | .mixed => true | _ => false)
    need_vector := some (match intent with | .fact_lookup => true | .mixed => true | .multi_hop => true | _ => false)
    need_graph := some (match intent with | .multi_hop => true | .mixed => true | _ => false) }

/-- nodes.retrieve_memobase; `state["user_id"]` raises when absent. -/
def retrieve_memobase (ctx : NodeContext) (s : GraphState) : Except String GraphState :=
  match s.user_id with
  | none => .error "user_id"
  | some uid =>
    let hits := ctx.memobaseSearch uid (s.query.getD "") s.primary_topic 5
    .ok { s with memobase_results := some (hits.map (fun hit =>
      { content := hit.content, score := hit.score, source := "memobase",
        metadata := hit.metadata })) }

/-- nodes.retrieve_vector. -/
def retrieve_vector (ctx : NodeContext) (s : GraphState) : Except String GraphState :=
  let collection := ctx.collectionRoot ++ "." ++ (s.primary_topic.getD "general")
  let hits := ctx.ragdollSearch (s.query.getD "") [collection] 5
  .ok { s with vector_results := some (hits.map (fun hit =>
    { content := hit.text, score := hit.score, source := "vector",
      metadata := hit.metadata })) }

/-- nodes.retrieve_graph_pagerank. -/
def retrieve_graph_pagerank (ctx : NodeContext) (s : GraphState) : Except String GraphState :=
  let graphs := match s.primary_topic with
    | some t => if t != "" then [t] else []
    | none => []
  let hits := ctx.graphQuery (s.query.getD "") graphs 5
  .ok { s with graph_results := some (hits.map (fun hit =>
    { content := hit.text, score := hit.score, source := "graph",
      metadata := hit.metadata })) }

/-- Deduplication loop of nodes.rerank: one `seen` set of content texts is
threaded over the concatenation of the three source lists; a chunk is kept
only when its content was not seen before. -/
def mergeDedup (seen : List String) : List RetrievalChunk → List RetrievalChunk
  | [] => []
  | c :: rest =>
    if seen.contains c.content then mergeDedup seen rest
    else c :: mergeDedup (c.content :: seen) rest

/-- Stable insertion for the descending-score sort: the new chunk goes in
front of the first chunk whose score is less than or equal to its own, so a
chunk never moves past an equal-scored one. -/
def insertDesc (c : RetrievalChunk) : List RetrievalChunk → List RetrievalChunk
  | [] => [c]
  | d :: rest => if d.score ≤ c.score then c :: d :: rest else d :: insertDesc c rest

/-- Stable sort by non-increasing score.  Python `list.sort(key=score,
reverse=True)` is a stable sort under the same (total) comparison, and a
stable sort is extensionally unique, so this insertion sort computes the
same list. -/
def sortScoreDesc : List RetrievalChunk → List RetrievalChunk
  | [] => []
  | c :: rest => insertDesc c (sortScoreDesc rest)

/-- nodes.rerank. -/
def rerank (s : GraphState) : GraphState :=
  let combined := mergeDedup []
    ((s.memobase_results.getD []) ++ (s.vector_results.getD []) ++ (s.graph_results.getD []))
  { s with final_results := some (sortScoreDesc combined) }

/-- nodes.tool_planner; the `title` / `body` argument is `state.get("query")`
(`None` when the key is absent). -/
def tool_planner (s : GraphState) : GraphState :=
  let query := pyLower (s.query.getD "")
  let planned : List PlannedToolCall :=
    if strContains query "task" || strContains query "todo" then
      [{ tool_name := "create_task", arguments := [("title", optStrVal s.query)] }]
    else if strContains query "email" then
      [{ tool_name := "send_email", arguments := [("body", optStrVal s.query)] }]
    else []
  { s with planned_tools := some planned }

/-- Python dictionary assignment `results[k] = v`: replace in place when the
key exists, append otherwise. -/
def insertAssoc (m : List (String × Value)) (k : String) (v : Value) : List (String × Value) :=
  if (m.lookup k).isSome then m.map (fun p => if p.1 = k then (k, v) else p)
  else m ++ [(k, v)]

/-- Loop body of nodes.run_tools over the planned calls. -/
def runToolsLoop (tools : List (String × ToolFn)) :
    List PlannedToolCall → List (String × Value) → List (String × Value)
  | [], results => results
  | call :: rest, results =>
    match tools.lookup call.tool_name with
    | none => runToolsLoop tools rest
        (insertAssoc results call.tool_name (Value.dict [("error", Value.str "tool not registered")]))
    | some tool => runToolsLoop tools rest
        (insertAssoc results call.tool_name (tool call.arguments))

/-- nodes.run_tools. -/
def run_tools (ctx : NodeContext) (s : GraphState) : Except String GraphState :=
  .ok { s with tool_results := some (runToolsLoop ctx.tools (s.planned_tools.getD []) []) }

/-- Rendering of Python `str(dict)` used for the ingested tool-result record;
the exact text never reaches the pipeline state, it only feeds the memory
write and the id hash. -/
def renderDict (m : List (String × Value)) : String :=
  String.intercalate ", " (m.map (fun p => p.1))

/-- nodes.ingest_tool_results: skipped when `tool_results` is falsy, otherwise
builds a record (raising on a missing `user_id`) and writes it; the state is
returned unchanged. -/
def ingest_tool_results (ctx : NodeContext) (s : GraphState) : Except String GraphState :=
  if (s.tool_results.getD []).isEmpty then .ok s
  else
    match s.user_id with
    | none => .error "user_id"
    | some uid =>
      let serialized := renderDict (s.tool_results.getD [])
      let record : MemobaseRecord :=
        { id := ctx.shortHash serialized
          user_id := uid
          topic := (s.primary_topic.getD "general")
          type := "tool_result"
          content := serialized
          metadata := Value.dict [("source", Value.str "tool_ingest")]
          created_at := ctx.now
          last_seen_at := ctx.now
          strength := 1
          expires_at := none }
      let _ := record
      .ok s

/-- Python `" ".join(parts)`. -/
def joinSpace : List String → String
  | [] => ""
  | [p] => p
  | p :: rest => p ++ " " ++ joinSpace rest

/-- nodes.generate_answer. -/
def generate_answer (s : GraphState) : GraphState :=
  let answer_parts : List String :=
    (if !(s.planned_tools.getD []).isEmpty then ["Planned tools executed."] else [])
    ++ (if !(s.final_results.getD []).isEmpty then ["Found supporting context."] else [])
  let answer_parts := if answer_parts.isEmpty then ["Processed request."] else answer_parts
  { s with answer := some (joinSpace answer_parts) }

/-- Executable unit of a registered step: consumes a state, returns a state
or a failure (graph_builder.NodeFn; synchronous and suspending steps are
uniform here, matching the engine treating both through one call shape). -/
def NodeFn : Type := GraphState → Except String GraphState

/-- Lift of a purely synchronous node into the common step shape. -/
def pureNode (f : GraphState → GraphState) : NodeFn := fun s => .ok (f s)

/-- graph_builder._guarded: skip the wrapped step (returning the input state
unchanged) unless the named flag field is truthy in the incoming state;
otherwise delegate fully, failure included. -/
def guarded (node : NodeFn) (flag_key : FieldKey) : NodeFn := fun s =>
  if truthyAt s flag_key then node s else .ok s

/-- One conditional-edge entry: the router over the (post-step) state and the
label-to-successor mapping (graph_builder.StateGraph.add_conditional_edges);
a mapping value may itself be `none`, and a label may be absent entirely. -/
structure CondEdge where
  router : GraphState → String
  mapping : List (String × Option String)

/-- graph_builder.StateGraph as populated by assembly time: name-keyed nodes,
unconditional successor lists, conditional edges, entry point and the
`finish_node` attribute (set only by `set_finish_point`). -/
structure Graph where
  nodes : List (String × NodeFn)
  edges : List (String × List String)
  condEdges : List (String × CondEdge)
  entrypoint : Option String
  finishNode : Option String

/-- Outcome of one engine run.  Each constructor carries the state
accumulated so far: the Python engine returns it on `done`, and discards it
when a lookup of an unregistered step name raises `KeyError`
(`missingNode`) or a step itself raises (`stepFailed`); it is kept here for
analysis.  `outOfFuel` marks runs longer than the supplied bound (the
Python loop has no bound; every claim below uses runs that finish). -/
inductive RunResult where
  | done : GraphState → RunResult
  | missingNode : String → GraphState → RunResult
  | stepFailed : String → GraphState → RunResult
  | outOfFuel : GraphState → RunResult

/-- Name of the unregistered step, when the run ended on a failed lookup. -/
def RunResult.missing? : RunResult → Option String
  | .missingNode n _ => some n
  | _ => none

/-- Whether the run returned normally. -/
def RunResult.isDone : RunResult → Bool
  | .done _ => true
  | _ => false

/-- State accumulated by the run, regardless of how it ended. -/
def RunResult.acc : RunResult → GraphState
  | .done s => s
  | .missingNode _ s => s
  | .stepFailed _ s => s
  | .outOfFuel s => s

/-- graph_builder.CompiledGraph.ainvoke, translated clause by clause.  The
loop guard `while current` treats both `None` and the empty string as
falsy.  After an unconditional edge the new cursor is compared with the
`finish_node` attribute (`None` unless `set_finish_point` was called); after
a conditional edge the loop continues with no such comparison.  The second
component of the result is the list of step names executed, in order
(instrumentation; the Python engine does not record it). -/
def ainvoke (g : Graph) : Nat → Option String → GraphState → List String → RunResult × List String
  | _, none, s, tr => (.done s, tr)
  | 0, some _, s, tr => (.outOfFuel s, tr)
  | fuel + 1, some cur, s, tr =>
    if cur = "" then (.done s, tr)
    else
      match g.nodes.lookup cur with
      | none => (.missingNode cur s, tr)
      | some f =>
        match f s with
        | .error e => (.stepFailed e s, tr ++ [cur])
        | .ok s₁ =>
          let tr₁ := tr ++ [cur]
          match g.condEdges.lookup cur with
          | some ce => ainvoke g fuel ((ce.mapping.lookup (ce.router s₁)).join) s₁ tr₁
          | none =>
            let next := ((g.edges.lookup cur).getD []).head?
            if next = g.finishNode then (.done s₁, tr₁)
            else ainvoke g fuel next s₁ tr₁

/-- Modelled from the spec: the run loop of the primary execution path.  The
assembled pipeline normally runs on the LangGraph engine, which is not under
src/; only the fallback engine (`ainvoke` above) is.  Spec section 4.1 step
(d) requires that whenever the new cursor equals the designated finish
marker — reached through an unconditional or a conditional edge — the run
stops and returns the state, the marker never being looked up or executed as
a step.  This engine differs from `ainvoke` exactly there: the finish marker
is an explicit parameter (the assembly designates `END`), compared on both
edge kinds. -/
def ainvokeSpec (g : Graph) (finish : String) :
    Nat → Option String → GraphState → List String → RunResult × List String
  | _, none, s, tr => (.done s, tr)
  | 0, some _, s, tr => (.outOfFuel s, tr)
  | fuel + 1, some cur, s, tr =>
    if cur = "" then (.done s, tr)
    else
      match g.nodes.lookup cur with
      | none => (.missingNode cur s, tr)
      | some f =>
        match f s with
        | .error e => (.stepFailed e s, tr ++ [cur])
        | .ok s₁ =>
          let tr₁ := tr ++ [cur]
          let next : Option String :=
            match g.condEdges.lookup cur with
            | some ce => (ce.mapping.lookup (ce.router s₁)).join
            | none => ((g.edges.lookup cur).getD []).head?
          if next = some finish then (.done s₁, tr₁)
          else ainvokeSpec g finish fuel next s₁ tr₁

/-- Terminal marker string (graph_builder.END in the fallback). -/
def END : String := "__END__"

/-- Router shared by both conditional edges of the assembly: the string
payload of `state.get("interaction_kind", InteractionKind.ACT_AND_STORE)`. -/
def kindRouter (s : GraphState) : String :=
  (s.interaction_kind.getD .act_and_store).value

/-- graph_builder.build_assistant_graph: nodes, entry point and edges exactly
as wired by the assembly.  `set_finish_point` is never called, so
`finishNode` stays `none`. -/
def build_assistant_graph (ctx : NodeContext) : Graph :=
  { nodes :=
      [("classify_interaction", pureNode classify_interaction),
       ("normalise_input", pureNode normalise_input),
       ("detect_ingestion_type", pureNode detect_ingestion_type),
       ("transform_for_storage", pureNode (transform_for_storage ctx.now)),
       ("write_memobase", write_memobase ctx),
       ("write_vector_indexes", write_vector_indexes ctx),
       ("write_graph", write_graph ctx),
       ("classify_topic", pureNode classify_topic),
       ("classify_intent", pureNode classify_intent),
       ("route_retrieval", pureNode route_retrieval),
       ("retrieve_memobase", guarded (retrieve_memobase ctx) .need_memobase),
       ("retrieve_vector", guarded (retrieve_vector ctx) .need_vector),
       ("retrieve_graph_pagerank", guarded (retrieve_graph_pagerank ctx) .need_graph),
       ("rerank", pureNode rerank),
       ("tool_planner", pureNode tool_planner),
       ("run_tools", run_tools ctx),
       ("ingest_tool_results", ingest_tool_results ctx),
       ("generate_answer", pureNode generate_answer)]
    edges :=
      [("normalise_input", ["detect_ingestion_type"]),
       ("detect_ingestion_type", ["transform_for_storage"]),
       ("transform_for_storage", ["write_memobase"]),
       ("write_memobase", ["write_vector_indexes"]),
       ("write_vector_indexes", ["write_graph"]),
       ("classify_topic", ["classify_intent"]),
       ("classify_intent", ["route_retrieval"]),
       ("route_retrieval", ["retrieve_memobase"]),
       ("retrieve_memobase", ["retrieve_vector"]),
       ("retrieve_vector", ["retrieve_graph_pagerank"]),
       ("retrieve_graph_pagerank", ["rerank"]),
       ("rerank", ["tool_planner"]),
       ("tool_planner", ["run_tools"]),
       ("run_tools", ["ingest_tool_results"]),
       ("ingest_tool_results", ["generate_answer"]),
       ("generate_answer", [END])]
    condEdges :=
      [("classify_interaction",
        { router := kindRouter
          mapping :=
            [("store_only", some "normalise_input"),
             ("transform_and_store", some "normalise_input"),
             ("act_and_store", some "normalise_input"),
             ("act_now", some "classify_topic")] }),
       ("write_graph",
        { router := kindRouter
          mapping :=
            [("store_only", some "generate_answer"),
             ("transform_and_store", some "generate_answer"),
             ("act_and_store", some "classify_topic"),
             ("act_now", some "classify_topic")] })]
    entrypoint := some "classify_interaction"
    finishNode := none }

/-- Fuel bound comfortably above the longest path of the assembled topology
(11 steps). -/
def runFuel : Nat := 40

/-- Run of the assembled pipeline on the in-src fallback engine. -/
def runFallback (ctx : NodeContext) (s : GraphState) : RunResult × List String :=
  ainvoke (build_assistant_graph ctx) runFuel (build_assistant_graph ctx).entrypoint s []

/-- Run of the assembled pipeline on the spec-modelled engine, with `END` as
the designated finish marker. -/
def runPipeline (ctx : NodeContext) (s : GraphState) : RunResult × List String :=
  ainvokeSpec (build_assistant_graph ctx) END runFuel (build_assistant_graph ctx).entrypoint s []

/-- Deterministic context whose store searches return no hits, carrying the
default tool registry and the given clock reading.  Used by the concrete
scenario runs. -/
def ctxEmpty (t : Rat) : NodeContext :=
  { memobaseSearch := fun _ _ _ _ => []
    ragdollSearch := fun _ _ _ => []
    graphQuery := fun _ _ _ => []
    tools := default_tool_registry
    now := t
    shortHash := fun text => text }

/-- Initial state of testable-property scenario A. -/
def initScenarioA (uid : String) : GraphState :=
  { user_id := some uid, query := some "remember this task to email the team",
    history := some [] }

/-- Initial state of testable-property scenario B. -/
def initScenarioB (uid : String) : GraphState :=
  { user_id := some uid, query := some "store only my phone number is 555",
    history := some [] }

/-- Control-relevant agreement between two run states: equality on every
field that routing, guards, failure points or downstream control ever read.
The omitted fields (`metadata`, the three retrieval result lists,
`final_results`, `answer`) are the ones a stored clock reading can reach. -/
def ctrlEq (s₁ s₂ : GraphState) : Prop :=
  s₁.user_id = s₂.user_id ∧ s₁.query = s₂.query ∧ s₁.history = s₂.history ∧
  s₁.interaction_kind = s₂.interaction_kind ∧ s₁.ingestion_type = s₂.ingestion_type ∧
  s₁.topic_candidates = s₂.topic_candidates ∧ s₁.primary_topic = s₂.primary_topic ∧
  s₁.topic_confidence = s₂.topic_confidence ∧ s₁.retrieval_intent = s₂.retrieval_intent ∧
  s₁.need_memobase = s₂.need_memobase ∧ s₁.need_vector = s₂.need_vector ∧
  s₁.need_graph = s₂.need_graph ∧ s₁.planned_tools = s₂.planned_tools ∧
  s₁.tool_results = s₂.tool_results

/-- Step simulation: on control-equal inputs the two steps fail with the same
message or succeed with control-equal outputs. -/
def NodeSim (f₁ f₂ : NodeFn) : Prop :=
  ∀ s₁ s₂, ctrlEq s₁ s₂ →
    (∃ e, f₁ s₁ = .error e ∧ f₂ s₂ = .error e) ∨
    (∃ t₁ t₂, f₁ s₁ = .ok t₁ ∧ f₂ s₂ = .ok t₂ ∧ ctrlEq t₁ t₂)

/-- Pointwise simulation of two node registries. -/
def NodesSim (n₁ n₂ : List (String × NodeFn)) : Prop :=
  List.Forall₂ (fun p q => p.1 = q.1 ∧ NodeSim p.2 q.2) n₁ n₂

/-- Simulation of two conditional-edge tables: same source names, same
mappings, and routers that agree on control-equal states. -/
def CondSim (c₁ c₂ : List (String × CondEdge)) : Prop :=
  List.Forall₂ (fun p q => p.1 = q.1 ∧ p.2.mapping = q.2.mapping ∧
    ∀ s₁ s₂, ctrlEq s₁ s₂ → p.2.router s₁ = q.2.router s₂) c₁ c₂

/-- Step that always fails (exercises failure propagation through the guard). -/
def failNode : NodeFn := fun _ => .error "boom"

/-- One-node graph whose single conditional edge maps no label at all
(exercises the unmapped-label ending). -/
def unmappedGraph : Graph :=
  { nodes := [("a", pureNode (fun s => s))]
    edges := []
    condEdges := [("a", { router := fun _ => "L", mapping := [] })]
    entrypoint := some "a"
    finishNode := none }

/-- The planned-call list with a repeated tool name used by the C8
counterexample. -/
def duplicatePlan : List PlannedToolCall :=
  [{ tool_name := "create_task", arguments := [("title", Value.str "a")] },
   { tool_name := "create_task", arguments := [("title", Value.str "b")] }]

/-- Rerank fixture: one memory chunk. -/
def chunkMemX : RetrievalChunk := ⟨"x", 2, "memobase", Value.null⟩

/-- Rerank fixture: a vector chunk sharing the content text of the memory chunk. -/
def chunkVecX : RetrievalChunk := ⟨"x", 5, "vector", Value.null⟩

/-- Rerank fixture: a second, distinct vector chunk. -/
def chunkVecY : RetrievalChunk := ⟨"y", 1, "vector", Value.null⟩

/-- State fixture for the rerank witness: the same content text appears in
both the memory and the vector lists. -/
def rerankFixture : GraphState :=
  { memobase_results := some [chunkMemX], vector_results := some [chunkVecX, chunkVecY] }

/-- Outcome recorded by nodes.run_tools for one planned call: the structured
error value when the tool name is unregistered, otherwise the response of
the registered tool on the call arguments. -/
def toolOutcome (tools : List (String × ToolFn)) (call : PlannedToolCall) : Value :=
  match tools.lookup call.tool_name with
  | none => Value.dict [("error", Value.str "tool not registered")]
  | some tool => tool call.arguments

/-- Last planned call carrying the given tool name, if any. -/
def lastCall? (planned : List PlannedToolCall) (name : String) : Option PlannedToolCall :=
  planned.foldl (fun acc call => if call.tool_name == name then some call else acc) none

/-- Planned-call list mixing one unregistered and one registered tool (used
by the C8 witness). -/
def witnessPlan : List PlannedToolCall :=
  [{ tool_name := "nope", arguments := [] },
   { tool_name := "create_task", arguments := [("title", Value.str "t")] }]

set_option maxHeartbeats 2000000

theorem write_memobase_ok (ctx : NodeContext) (s : GraphState) (uid : String)
    (h : s.user_id = some uid) :
    write_memobase ctx s =
      .ok { s with memobase_results := some [⟨s.query.getD "", 1, "memobase", Value.dict (s.metadata.getD [])⟩] } := by
  simp [write_memobase, h]

theorem write_memobase_err (ctx : NodeContext) (s : GraphState)
    (h : s.user_id = none) : write_memobase ctx s = .error "user_id" := by
  simp [write_memobase, h]

/-- C4: the guard wrapper returns the input state untouched — for every
wrapped step, so the step is never consulted — whenever the flag field is
falsy in the incoming state, and delegates to the wrapped step (its failure
included) whenever the flag field is truthy. -/
theorem claim_C4 (node : NodeFn) (flag : FieldKey) (s : GraphState) :
    (truthyAt s flag = false → guarded node flag s = .ok s) ∧
    (truthyAt s flag = true → guarded node flag s = node s) := by
  constructor <;> intro h <;> simp [guarded, h]

/-- Witness for C4 at concrete inputs: an absent flag passes the state
through (even around an always-failing step), a true flag delegates and
propagates the failure. -/
theorem claim_C4_witness :
    (truthyAt {} .need_memobase = false ∧ guarded failNode .need_memobase {} = .ok {}) ∧
    (truthyAt { need_memobase := some true } .need_memobase = true ∧
      guarded failNode .need_memobase { need_memobase := some true } = .error "boom") :=
  ⟨⟨rfl, (claim_C4 failNode .need_memobase {}).1 rfl⟩,
   ⟨rfl, (claim_C4 failNode .need_memobase { need_memobase := some true }).2 rfl⟩⟩

/-- C7: in the fallback engine, when the step at the cursor succeeds and its
conditional-edge router produces a label absent from the mapping, the run
ends without error, returning exactly the state accumulated up to and
including that step. -/
theorem claim_C7 (g : Graph) (fuel : Nat) (c : String) (f : NodeFn) (ce : CondEdge)
    (s s' : GraphState) (tr : List String)
    (hc : c ≠ "")
    (hf : g.nodes.lookup c = some f)
    (hok : f s = .ok s')
    (hce : g.condEdges.lookup c = some ce)
    (hlabel : ce.mapping.lookup (ce.router s') = none) :
    ainvoke g (fuel + 2) (some c) s tr = (.done s', tr ++ [c]) := by
  simp [ainvoke, hc, hf, hok, hce, hlabel, Option.join]

/-- Witness for C7: a one-node graph whose router emits a label with no
mapping entry ends the run with the accumulated state. -/
theorem claim_C7_witness :
    ainvoke unmappedGraph 2 (some "a") {} [] = (.done {}, ["a"]) :=
  claim_C7 unmappedGraph 0 "a" (pureNode (fun s => s))
    { router := fun _ => "L", mapping := [] } {} {} []
    (by decide) rfl rfl rfl rfl

/-- C2 (code evaluated at the failing input): the assembly never designates a
finish marker to the fallback engine (`finishNode` stays `none`), so a run
of the assembled pipeline that reaches answer synthesis does not stop and
return the state; the engine looks the terminal marker `__END__` up as a
step and fails on it, after having executed answer synthesis (the
accumulated answer is already present). -/
theorem claim_C2 :
    (build_assistant_graph (ctxEmpty 0)).finishNode = none ∧
    (runFallback (ctxEmpty 0) (initScenarioB "tester")).1.missing? = some END ∧
    (runFallback (ctxEmpty 0) (initScenarioB "tester")).1.isDone = false ∧
    (runFallback (ctxEmpty 0) (initScenarioB "tester")).1.acc.answer = some "Processed request." ∧
    (runFallback (ctxEmpty 0) (initScenarioB "tester")).2 =
      ["classify_interaction", "normalise_input", "detect_ingestion_type",
       "transform_for_storage", "write_memobase", "write_vector_indexes", "write_graph",
       "generate_answer"] :=
  ⟨rfl, rfl, rfl, rfl, rfl⟩

/-- C1: scenario A — for any user id and any collaborator responses under
which the memory search (as invoked: this user, the full query, topic
`general`, limit 5) finds nothing, the assembled pipeline on
`remember this task to email the team` resolves the interaction kind to
act-and-store, the ingestion sub-type to `task`, the topic to `general` with
confidence 0.35 (`mkRat 35 100`), the retrieval intent to memory-personal
with only the memory need-flag set, plans exactly one `create_task` call
titled with the full query, and synthesises exactly
`Planned tools executed.` (no merged results, so the supporting-context
clause is absent). -/
theorem claim_C1 (ctx : NodeContext) (uid : String)
    (hs : ctx.memobaseSearch uid "remember this task to email the team" (some "general") 5 = []) :
    (runPipeline ctx (initScenarioA uid)).1.isDone = true ∧
    (runPipeline ctx (initScenarioA uid)).1.acc.interaction_kind = some .act_and_store ∧
    (runPipeline ctx (initScenarioA uid)).1.acc.ingestion_type = some "task" ∧
    (runPipeline ctx (initScenarioA uid)).1.acc.primary_topic = some "general" ∧
    (runPipeline ctx (initScenarioA uid)).1.acc.topic_confidence = some (mkRat 35 100) ∧
    (runPipeline ctx (initScenarioA uid)).1.acc.retrieval_intent = some .memory_personal ∧
    (runPipeline ctx (initScenarioA uid)).1.acc.need_memobase = some true ∧
    (runPipeline ctx (initScenarioA uid)).1.acc.need_vector = some false ∧
    (runPipeline ctx (initScenarioA uid)).1.acc.need_graph = some false ∧
    (runPipeline ctx (initScenarioA uid)).1.acc.planned_tools =
      some [⟨"create_task", [("title", Value.str "remember this task to email the team")]⟩] ∧
    (runPipeline ctx (initScenarioA uid)).1.acc.final_results = some [] ∧
    (runPipeline ctx (initScenarioA uid)).1.acc.answer = some "Planned tools executed." := by
  refine ⟨?_, ?_, ?_, ?_, ?_, ?_, ?_, ?_, ?_, ?_, ?_, ?_⟩ <;>
  simp [runPipeline, ainvokeSpec, build_assistant_graph, pureNode, guarded, classify_interaction,
    normalise_input, detect_ingestion_type, transform_for_storage, write_memobase,
    write_vector_indexes, write_graph, classify_topic, classify_intent, route_retrieval,
    retrieve_memobase, retrieve_vector, retrieve_graph_pagerank, rerank, tool_planner, run_tools,
    ingest_tool_results, generate_answer, kindRouter, truthyAt, mergeDedup, sortScoreDesc,
    runToolsLoop, insertAssoc, END, runFuel, initScenarioA, pyStrip, pyLower, pyLen, joinSpace,
    strContains, infixOf, optStrVal, DEFAULT_TOPICS, InteractionKind.value, hs, RunResult.acc,
    RunResult.isDone, List.lookup, Option.join]

/-- Witness for C1: the empty-search context satisfies the hypothesis, and
the run on scenario A produces the claimed answer and tool plan. -/
theorem claim_C1_witness :
    (ctxEmpty 0).memobaseSearch "tester" "remember this task to email the team" (some "general") 5 = [] ∧
    (runPipeline (ctxEmpty 0) (initScenarioA "tester")).1.acc.answer = some "Planned tools executed." ∧
    (runPipeline (ctxEmpty 0) (initScenarioA "tester")).1.acc.planned_tools =
      some [⟨"create_task", [("title", Value.str "remember this task to email the team")]⟩] :=
  ⟨rfl, (claim_C1 (ctxEmpty 0) "tester" rfl).2.2.2.2.2.2.2.2.2.2.2,
    (claim_C1 (ctxEmpty 0) "tester" rfl).2.2.2.2.2.2.2.2.2.1⟩

/-- C6: scenario B — for any user id and any collaborator responses, the
assembled pipeline on `store only my phone number is 555` classifies the
interaction as store-only with ingestion sub-type `note`, runs exactly the
storage branch and then answer synthesis (no topic or intent classification,
no retrieval, no merge, no tool steps), leaves the topic field absent and
answers exactly `Processed request.`. -/
theorem claim_C6 (ctx : NodeContext) (uid : String) :
    (runPipeline ctx (initScenarioB uid)).1.isDone = true ∧
    (runPipeline ctx (initScenarioB uid)).1.acc.interaction_kind = some .store_only ∧
    (runPipeline ctx (initScenarioB uid)).1.acc.ingestion_type = some "note" ∧
    (runPipeline ctx (initScenarioB uid)).1.acc.primary_topic = none ∧
    (runPipeline ctx (initScenarioB uid)).1.acc.retrieval_intent = none ∧
    (runPipeline ctx (initScenarioB uid)).1.acc.answer = some "Processed request." ∧
    (runPipeline ctx (initScenarioB uid)).2 =
      ["classify_interaction", "normalise_input", "detect_ingestion_type",
       "transform_for_storage", "write_memobase", "write_vector_indexes", "write_graph",
       "generate_answer"] := by
  refine ⟨?_, ?_, ?_, ?_, ?_, ?_, ?_⟩ <;>
  simp [runPipeline, ainvokeSpec, build_assistant_graph, pureNode, guarded, classify_interaction,
    normalise_input, detect_ingestion_type, transform_for_storage, write_memobase,
    write_vector_indexes, write_graph, classify_topic, classify_intent, route_retrieval,
    retrieve_memobase, retrieve_vector, retrieve_graph_pagerank, rerank, tool_planner, run_tools,
    ingest_tool_results, generate_answer, kindRouter, truthyAt, mergeDedup, sortScoreDesc,
    runToolsLoop, insertAssoc, END, runFuel, initScenarioB, pyStrip, pyLower, pyLen, joinSpace,
    strContains, infixOf, optStrVal, DEFAULT_TOPICS, InteractionKind.value, RunResult.acc,
    RunResult.isDone, List.lookup, Option.join]

/-- C10: the storage write echoes the stored record into the state — after
`write_memobase` the field `memobase_results` is the one-element list whose
chunk repeats the (normalised) query with score 1 and source `memobase` —
so a store-only run ends with a non-empty `memobase_results` even though no
retrieval ever ran; and the echo survives unless the guarded
`retrieve_memobase` actually executes (a falsy flag passes the state through
untouched). -/
theorem claim_C10 :
    (∀ (ctx : NodeContext) (s : GraphState) (uid : String), s.user_id = some uid →
      write_memobase ctx s =
        .ok { s with memobase_results := some [⟨s.query.getD "", 1, "memobase", Value.dict (s.metadata.getD [])⟩] }) ∧
    (∀ (ctx : NodeContext) (uid : String),
      (runPipeline ctx (initScenarioB uid)).1.acc.memobase_results =
        some [⟨"store only my phone number is 555", 1, "memobase", Value.dict
          [("summary", Value.str "store only my phone number is 555"), ("length", Value.num 33),
           ("created_at", Value.num ctx.now), ("ingestion_type", Value.str "note")]⟩]) ∧
    (∀ (ctx : NodeContext) (s : GraphState), truthyAt s .need_memobase = false →
      guarded (retrieve_memobase ctx) .need_memobase s = .ok s) := by
  refine ⟨fun ctx s uid h => write_memobase_ok ctx s uid h, fun ctx uid => ?_,
    fun ctx s h => by simp [guarded, h]⟩
  simp [runPipeline, ainvokeSpec, build_assistant_graph, pureNode, guarded, classify_interaction,
    normalise_input, detect_ingestion_type, transform_for_storage, write_memobase,
    write_vector_indexes, write_graph, classify_topic, classify_intent, route_retrieval,
    retrieve_memobase, retrieve_vector, retrieve_graph_pagerank, rerank, tool_planner, run_tools,
    ingest_tool_results, generate_answer, kindRouter, truthyAt, mergeDedup, sortScoreDesc,
    runToolsLoop, insertAssoc, END, runFuel, initScenarioB, pyStrip, pyLower, pyLen, joinSpace,
    strContains, infixOf, optStrVal, DEFAULT_TOPICS, InteractionKind.value, RunResult.acc,
    RunResult.isDone, List.lookup, Option.join] <;> rfl

/-- Witness for C10: at a concrete state with a user id the write echo is
the one-chunk list repeating the query; at a concrete flag-absent state the
guarded retrieval is the identity; the concrete store-only run ends with the
non-empty echo. -/
theorem claim_C10_witness :
    write_memobase (ctxEmpty 0) { user_id := some "u", query := some "q" } =
      .ok { user_id := some "u", query := some "q",
            memobase_results := some [⟨"q", 1, "memobase", Value.dict []⟩] } ∧
    guarded (retrieve_memobase (ctxEmpty 0)) .need_memobase {} = .ok {} ∧
    (runPipeline (ctxEmpty 0) (initScenarioB "tester")).1.acc.memobase_results =
      some [⟨"store only my phone number is 555", 1, "memobase", Value.dict
        [("summary", Value.str "store only my phone number is 555"), ("length", Value.num 33),
         ("created_at", Value.num 0), ("ingestion_type", Value.str "note")]⟩] :=
  ⟨claim_C10.1 (ctxEmpty 0) { user_id := some "u", query := some "q" } "u" rfl,
   claim_C10.2.2 (ctxEmpty 0) {} rfl,
   claim_C10.2.1 (ctxEmpty 0) "tester"⟩

theorem mergeDedup_notSeen (l : List RetrievalChunk) :
    ∀ (seen : List String) (ch : RetrievalChunk), ch ∈ mergeDedup seen l →
      seen.contains ch.content = false := by
  induction l with
  | nil => intro seen ch h; simp [mergeDedup] at h
  | cons d rest ih =>
    intro seen ch h
    rw [mergeDedup] at h
    by_cases hd : seen.contains d.content
    · rw [if_pos hd] at h
      exact ih seen ch h
    · rw [if_neg hd] at h
      rcases List.mem_cons.mp h with rfl | hmem
      · simpa using hd
      · have := ih (d.content :: seen) ch hmem
        simp only [List.contains_cons, Bool.or_eq_false_iff] at this
        exact this.2

theorem mergeDedup_find (l : List RetrievalChunk) :
    ∀ (seen : List String) (ch : RetrievalChunk), ch ∈ mergeDedup seen l →
      l.find? (fun c => c.content == ch.content) = some ch := by
  induction l with
  | nil => intro seen ch h; simp [mergeDedup] at h
  | cons d rest ih =>
    intro seen ch h
    rw [mergeDedup] at h
    by_cases hd : seen.contains d.content
    · rw [if_pos hd] at h
      have hns : ch.content ∉ seen := by simpa using mergeDedup_notSeen rest seen ch h
      have hd' : d.content ∈ seen := by simpa using hd
      have hne : d.content ≠ ch.content := fun e => hns (e ▸ hd')
      rw [List.find?_cons_of_neg _ (by simpa using hne), ih seen ch h]
    · rw [if_neg hd] at h
      rcases List.mem_cons.mp h with rfl | hmem
      · exact List.find?_cons_of_pos _ (by simp)
      · have hns : ch.content ∉ d.content :: seen := by
          simpa using mergeDedup_notSeen rest (d.content :: seen) ch hmem
        have hne : d.content ≠ ch.content := fun e => hns (e ▸ List.mem_cons_self _ _)
        rw [List.find?_cons_of_neg _ (by simpa using hne), ih (d.content :: seen) ch hmem]

theorem mergeDedup_countP (l : List RetrievalChunk) :
    ∀ (seen : List String) (c : String),
      (mergeDedup seen l).countP (fun ch => ch.content == c) =
        if seen.contains c then 0
        else if l.any (fun ch => ch.content == c) then 1 else 0 := by
  induction l with
  | nil => intro seen c; by_cases hs : seen.contains c <;> simp [mergeDedup, hs]
  | cons d rest ih =>
    intro seen c
    rw [mergeDedup]
    by_cases hd : seen.contains d.content
    · rw [if_pos hd, ih]
      have hd' : d.content ∈ seen := by simpa using hd
      by_cases hdc : d.content = c
      · subst hdc
        simp [hd']
      · simp [hdc]
    · rw [if_neg hd, List.countP_cons, ih]
      have hd' : d.content ∉ seen := by simpa using hd
      by_cases hdc : d.content = c
      · subst hdc
        simp [hd']
      · simp [hdc, Ne.symm hdc]

theorem insertDesc_perm (c : RetrievalChunk) (l : List RetrievalChunk) :
    (insertDesc c l).Perm (c :: l) := by
  induction l with
  | nil => rfl
  | cons d rest ih =>
    rw [insertDesc]
    by_cases h : d.score ≤ c.score
    · rw [if_pos h]
    · rw [if_neg h]
      exact (ih.cons d).trans (List.Perm.swap c d rest)

theorem sortScoreDesc_perm (l : List RetrievalChunk) : (sortScoreDesc l).Perm l := by
  induction l with
  | nil => rfl
  | cons c rest ih => exact (insertDesc_perm c (sortScoreDesc rest)).trans (ih.cons c)

theorem insertDesc_sorted (c : RetrievalChunk) (l : List RetrievalChunk)
    (h : l.Pairwise (fun a b => b.score ≤ a.score)) :
    (insertDesc c l).Pairwise (fun a b => b.score ≤ a.score) := by
  induction l with
  | nil => simp [insertDesc]
  | cons d rest ih =>
    rw [insertDesc]
    rcases List.pairwise_cons.mp h with ⟨hd, hrest⟩
    by_cases hle : d.score ≤ c.score
    · rw [if_pos hle]
      refine List.pairwise_cons.mpr ⟨?_, h⟩
      intro x hx
      rcases List.mem_cons.mp hx with rfl | hx
      · exact hle
      · exact le_trans (hd x hx) hle
    · rw [if_neg hle]
      refine List.pairwise_cons.mpr ⟨?_, ih hrest⟩
      intro x hx
      have hx' := (insertDesc_perm c rest).mem_iff.mp hx
      rcases List.mem_cons.mp hx' with rfl | hx'
      · exact le_of_lt (lt_of_not_le hle)
      · exact hd x hx'

theorem sortScoreDesc_sorted (l : List RetrievalChunk) :
    (sortScoreDesc l).Pairwise (fun a b => b.score ≤ a.score) := by
  induction l with
  | nil => simp [sortScoreDesc]
  | cons c rest ih => exact insertDesc_sorted c (sortScoreDesc rest) ih

theorem insertDesc_filter (c : RetrievalChunk) (l : List RetrievalChunk) (r : Rat) :
    (insertDesc c l).filter (fun ch => ch.score == r) =
      if c.score == r then c :: l.filter (fun ch => ch.score == r)
      else l.filter (fun ch => ch.score == r) := by
  induction l with
  | nil =>
    by_cases hc : c.score = r <;> simp [insertDesc, hc]
  | cons d rest ih =>
    rw [insertDesc]
    by_cases hle : d.score ≤ c.score
    · rw [if_pos hle]
      by_cases hc : c.score = r <;> simp [hc, List.filter_cons]
    · rw [if_neg hle]
      by_cases hc : c.score = r
      · have hdr : d.score ≠ r := fun e => hle (le_of_eq (e.trans hc.symm))
        simp [List.filter_cons, hc, hdr, ih]
      · simp [List.filter_cons, hc, ih]

theorem sortScoreDesc_filter (l : List RetrievalChunk) (r : Rat) :
    (sortScoreDesc l).filter (fun ch => ch.score == r) =
      l.filter (fun ch => ch.score == r) := by
  induction l with
  | nil => rfl
  | cons c rest ih =>
    rw [sortScoreDesc, insertDesc_filter, List.filter_cons]
    by_cases hc : c.score = r <;> simp [hc, ih]

/-- C3: the merge step sets `final_results` to the stable descending sort of
the concatenation memory ++ vector ++ graph (absent lists read as empty)
deduplicated by content with the first occurrence kept.  Consequently each
distinct content text occurs exactly once, each kept chunk is the first
chunk carrying its content in source-priority order (memory before vector
before graph), scores are non-increasing, and equal-score chunks keep the
deduplicated (source-priority) order — the stability of the sort. -/
theorem claim_C3 (s : GraphState) :
    (rerank s).final_results = some (sortScoreDesc (mergeDedup []
      ((s.memobase_results.getD []) ++ (s.vector_results.getD []) ++ (s.graph_results.getD [])))) ∧
    (∀ c : String,
      (sortScoreDesc (mergeDedup []
          ((s.memobase_results.getD []) ++ (s.vector_results.getD []) ++ (s.graph_results.getD [])))).countP
          (fun ch => ch.content == c) =
        if ((s.memobase_results.getD []) ++ (s.vector_results.getD []) ++ (s.graph_results.getD [])).any
            (fun ch => ch.content == c) then 1 else 0) ∧
    (∀ ch, ch ∈ sortScoreDesc (mergeDedup []
          ((s.memobase_results.getD []) ++ (s.vector_results.getD []) ++ (s.graph_results.getD []))) →
      ((s.memobase_results.getD []) ++ (s.vector_results.getD []) ++ (s.graph_results.getD [])).find?
          (fun c => c.content == ch.content) = some ch) ∧
    (sortScoreDesc (mergeDedup []
        ((s.memobase_results.getD []) ++ (s.vector_results.getD []) ++ (s.graph_results.getD [])))).Pairwise
      (fun a b => b.score ≤ a.score) ∧
    (∀ r : Rat,
      (sortScoreDesc (mergeDedup []
          ((s.memobase_results.getD []) ++ (s.vector_results.getD []) ++ (s.graph_results.getD [])))).filter
          (fun ch => ch.score == r) =
        (mergeDedup []
          ((s.memobase_results.getD []) ++ (s.vector_results.getD []) ++ (s.graph_results.getD []))).filter
          (fun ch => ch.score == r)) := by
  refine ⟨rfl, ?_, ?_, sortScoreDesc_sorted _, fun r => sortScoreDesc_filter _ r⟩
  · intro c
    rw [(sortScoreDesc_perm _).countP_eq, mergeDedup_countP]
    simp
  · intro ch hch
    exact mergeDedup_find _ [] ch ((sortScoreDesc_perm _).mem_iff.mp hch)

/-- Witness for C3 on the fixture: the duplicated content `x` survives
exactly once, and the kept chunk is the memory-sourced first occurrence. -/
theorem claim_C3_witness :
    (sortScoreDesc (mergeDedup [] ((rerankFixture.memobase_results.getD []) ++
        (rerankFixture.vector_results.getD []) ++ (rerankFixture.graph_results.getD [])))).countP
      (fun ch => ch.content == "x") = 1 ∧
    ((rerankFixture.memobase_results.getD []) ++ (rerankFixture.vector_results.getD []) ++
        (rerankFixture.graph_results.getD [])).find? (fun c => c.content == "x") = some chunkMemX :=
  ⟨((claim_C3 rerankFixture).2.1 "x").trans (by rfl),
   (claim_C3 rerankFixture).2.2.1 chunkMemX (by
      rw [show sortScoreDesc (mergeDedup [] ((rerankFixture.memobase_results.getD []) ++
        (rerankFixture.vector_results.getD []) ++ (rerankFixture.graph_results.getD []))) =
        [chunkMemX, chunkVecY] from rfl]
      exact List.mem_cons_self _ _)⟩

theorem lookup_cons_self (k' : String) (p : String × Value) (rest : List (String × Value))
    (h : k' = p.1) : (p :: rest).lookup k' = some p.2 := by
  rw [List.lookup_cons, show (k' == p.1) = true from by rw [h]; exact beq_self_eq_true _]

theorem lookup_cons_ne (k' : String) (p : String × Value) (rest : List (String × Value))
    (h : k' ≠ p.1) : (p :: rest).lookup k' = rest.lookup k' := by
  rw [List.lookup_cons, show (k' == p.1) = false from by simpa [beq_eq_false_iff_ne] using h]

theorem lookup_map_replace_ne (k : String) (v : Value) (k' : String) (hne : k' ≠ k) :
    ∀ (m : List (String × Value)),
      (m.map (fun p => if p.1 = k then (k, v) else p)).lookup k' = m.lookup k' := by
  intro m
  induction m with
  | nil => rfl
  | cons p rest ih =>
    rw [List.map_cons]
    by_cases hp : p.1 = k
    · rw [if_pos hp, lookup_cons_ne k' (k, v) _ hne, lookup_cons_ne k' p rest (hp ▸ hne), ih]
    · by_cases hk : k' = p.1
      · rw [if_neg hp, lookup_cons_self k' p _ hk, lookup_cons_self k' p rest hk]
      · rw [if_neg hp, lookup_cons_ne k' p _ hk, lookup_cons_ne k' p rest hk, ih]

theorem lookup_map_replace_self (k : String) (v : Value) :
    ∀ (m : List (String × Value)), (m.lookup k).isSome →
      (m.map (fun p => if p.1 = k then (k, v) else p)).lookup k = some v := by
  intro m
  induction m with
  | nil => intro h; simp at h
  | cons p rest ih =>
    intro h
    rw [List.map_cons]
    by_cases hp : p.1 = k
    · rw [if_pos hp, lookup_cons_self k (k, v) _ rfl]
    · have hk : k ≠ p.1 := fun e => hp e.symm
      rw [if_neg hp, lookup_cons_ne k p _ hk]
      rw [lookup_cons_ne k p rest hk] at h
      exact ih h

theorem lookup_append_single (k : String) (v : Value) (k' : String) :
    ∀ (m : List (String × Value)),
      (m ++ [(k, v)]).lookup k' =
        match m.lookup k' with
        | some w => some w
        | none => if k' = k then some v else none := by
  intro m
  induction m with
  | nil =>
    rw [List.nil_append, List.lookup_nil]
    by_cases hk : k' = k
    · rw [lookup_cons_self k' (k, v) [] hk, if_pos hk]
    · rw [lookup_cons_ne k' (k, v) [] hk, if_neg hk, List.lookup_nil]
  | cons p rest ih =>
    rw [List.cons_append]
    by_cases hk : k' = p.1
    · rw [lookup_cons_self k' p _ hk, lookup_cons_self k' p rest hk]
    · rw [lookup_cons_ne k' p _ hk, lookup_cons_ne k' p rest hk, ih]

theorem insertAssoc_lookup (m : List (String × Value)) (k : String) (v : Value) (k' : String) :
    (insertAssoc m k v).lookup k' = if k' = k then some v else m.lookup k' := by
  rw [insertAssoc]
  by_cases hs : (m.lookup k).isSome
  · rw [if_pos hs]
    by_cases hk : k' = k
    · subst hk
      rw [if_pos rfl]
      exact lookup_map_replace_self k' v m hs
    · rw [if_neg hk]
      exact lookup_map_replace_ne k v k' hk m
  · rw [if_neg hs, lookup_append_single]
    by_cases hk : k' = k
    · subst hk
      have hnone : m.lookup k' = none := by
        cases hh : m.lookup k' with
        | none => rfl
        | some w => rw [hh] at hs; simp at hs
      simp [hnone]
    · cases hh : m.lookup k' with
      | none => rw [if_neg hk]
      | some w => rw [if_neg hk, if_neg hk]

theorem lastCall?_cons (c : PlannedToolCall) (l : List PlannedToolCall) (name : String) :
    lastCall? (c :: l) name =
      match lastCall? l name with
      | some d => some d
      | none => if c.tool_name == name then some c else none := by
  have haux : ∀ (l : List PlannedToolCall) (i : Option PlannedToolCall),
      l.foldl (fun a call => if call.tool_name == name then some call else a) i =
        match l.foldl (fun a call => if call.tool_name == name then some call else a) none with
        | some d => some d
        | none => i := by
    intro l
    induction l with
    | nil => intro i; rfl
    | cons d rest ih =>
      intro i
      rw [List.foldl_cons, List.foldl_cons, ih, ih (if d.tool_name == name then some d else none)]
      cases hrest : rest.foldl (fun a call => if call.tool_name == name then some call else a) none with
      | some e => rfl
      | none =>
        by_cases hd : d.tool_name == name
        · rw [if_pos hd, if_pos hd]
        · rw [if_neg hd, if_neg hd]
  rw [lastCall?, List.foldl_cons, haux]
  rfl

theorem lastCall?_name (l : List PlannedToolCall) (name : String) (c : PlannedToolCall)
    (h : lastCall? l name = some c) : c.tool_name = name := by
  induction l with
  | nil => simp [lastCall?] at h
  | cons d rest ih =>
    rw [lastCall?_cons] at h
    cases hl : lastCall? rest name with
    | some e =>
      rw [hl] at h
      exact ih (hl.trans (by injection h with h2; rw [h2]))
    | none =>
      rw [hl] at h
      by_cases hd : d.tool_name == name
      · rw [if_pos hd] at h
        injection h with h2
        rw [← h2]
        exact (beq_iff_eq ..).mp hd
      · rw [if_neg hd] at h
        exact absurd h (by simp)

theorem lastCall?_isSome_of_mem (l : List PlannedToolCall) (call : PlannedToolCall)
    (h : call ∈ l) : (lastCall? l call.tool_name).isSome := by
  induction l with
  | nil => simp at h
  | cons d rest ih =>
    rw [lastCall?_cons]
    cases hl : lastCall? rest call.tool_name with
    | some e => rfl
    | none =>
      rcases List.mem_cons.mp h with rfl | hmem
      · rw [if_pos (beq_self_eq_true _)]
        rfl
      · have := ih hmem
        rw [hl] at this
        simp at this

theorem runToolsLoop_cons (tools : List (String × ToolFn)) (c : PlannedToolCall)
    (rest : List PlannedToolCall) (acc : List (String × Value)) :
    runToolsLoop tools (c :: rest) acc =
      runToolsLoop tools rest (insertAssoc acc c.tool_name (toolOutcome tools c)) := by
  rw [runToolsLoop, toolOutcome]
  cases h : tools.lookup c.tool_name <;> rfl

theorem runToolsLoop_lookup (tools : List (String × ToolFn)) :
    ∀ (planned : List PlannedToolCall) (acc : List (String × Value)) (name : String),
      (runToolsLoop tools planned acc).lookup name =
        match lastCall? planned name with
        | some c => some (toolOutcome tools c)
        | none => acc.lookup name := by
  intro planned
  induction planned with
  | nil => intro acc name; rfl
  | cons c rest ih =>
    intro acc name
    rw [runToolsLoop_cons, ih, lastCall?_cons]
    cases hl : lastCall? rest name with
    | some d => rfl
    | none =>
      rw [insertAssoc_lookup]
      by_cases hnc : c.tool_name = name
      · rw [if_pos hnc.symm, if_pos (by simpa using hnc)]
      · rw [if_neg (fun e => hnc e.symm), if_neg (by simpa using hnc)]

/-- C8 (amended): run_tools never aborts - it returns the state extended
with one results entry computed per planned call.  An unregistered tool name
yields the structured error value under that name; every planned call has an
entry under its name; a registered tool is invoked with keyword arguments
and the value stored under a name is the invocation result of the LAST
planned call bearing that name (for distinct names, the own result of each
call). -/
theorem claim_C8 (ctx : NodeContext) (s : GraphState) (planned : List PlannedToolCall)
    (h : s.planned_tools = some planned) :
    run_tools ctx s = .ok { s with tool_results := some (runToolsLoop ctx.tools planned []) } ∧
    (∀ call ∈ planned, ctx.tools.lookup call.tool_name = none →
      (runToolsLoop ctx.tools planned []).lookup call.tool_name =
        some (Value.dict [("error", Value.str "tool not registered")])) ∧
    (∀ call ∈ planned, ((runToolsLoop ctx.tools planned []).lookup call.tool_name).isSome) ∧
    (∀ (name : String) (tool : ToolFn) (c : PlannedToolCall), ctx.tools.lookup name = some tool →
      lastCall? planned name = some c →
      (runToolsLoop ctx.tools planned []).lookup name = some (tool c.arguments)) := by
  refine ⟨by simp [run_tools, h], ?_, ?_, ?_⟩
  · intro call hmem hreg
    rw [runToolsLoop_lookup]
    have hsome := lastCall?_isSome_of_mem planned call hmem
    cases hl : lastCall? planned call.tool_name with
    | none => rw [hl] at hsome; simp at hsome
    | some c =>
      have hcn := lastCall?_name planned call.tool_name c hl
      show some (toolOutcome ctx.tools c) = _
      unfold toolOutcome
      rw [hcn, hreg]
  · intro call hmem
    rw [runToolsLoop_lookup]
    have hsome := lastCall?_isSome_of_mem planned call hmem
    cases hl : lastCall? planned call.tool_name with
    | none => rw [hl] at hsome; simp at hsome
    | some c => rfl
  · intro name tool c hreg hl
    rw [runToolsLoop_lookup, hl]
    show some (toolOutcome ctx.tools c) = _
    unfold toolOutcome
    rw [lastCall?_name planned name c hl, hreg]

/-- Counterexample to C8 as stated: with two planned `create_task` calls
(titles `a` then `b`), the tool is registered and both calls are invoked,
but `tool_results` holds only the value of the second invocation - the
result of the first call (status created, title `a`) is stored nowhere, so
it is not true that the result of every planned registered call is stored
under the tool name. -/
theorem claim_C8_counterexample :
    run_tools (ctxEmpty 0) { planned_tools := some duplicatePlan } =
      .ok { planned_tools := some duplicatePlan, tool_results :=
        some [("create_task", Value.dict [("status", Value.str "created"), ("title", Value.str "b")])] } ∧
    duplicatePlan.head? = some ⟨"create_task", [("title", Value.str "a")]⟩ ∧
    (ctxEmpty 0).tools.lookup "create_task" = some create_task_tool ∧
    create_task_tool [("title", Value.str "a")] =
      Value.dict [("status", Value.str "created"), ("title", Value.str "a")] ∧
    (∀ p ∈ [("create_task", Value.dict [("status", Value.str "created"), ("title", Value.str "b")])],
      p.2 ≠ Value.dict [("status", Value.str "created"), ("title", Value.str "a")]) := by
  refine ⟨rfl, rfl, rfl, rfl, ?_⟩
  intro p hp
  rw [List.mem_singleton] at hp
  subst hp
  simp

/-- Witness for C8 (amended) on a two-call plan: the unregistered call got
the structured error entry under its name and the result of the registered
call is stored under its name. -/
theorem claim_C8_witness :
    (runToolsLoop (ctxEmpty 0).tools witnessPlan []).lookup "nope" =
      some (Value.dict [("error", Value.str "tool not registered")]) ∧
    (runToolsLoop (ctxEmpty 0).tools witnessPlan []).lookup "create_task" =
      some (create_task_tool [("title", Value.str "t")]) :=
  ⟨(claim_C8 (ctxEmpty 0) { planned_tools := some witnessPlan } witnessPlan rfl).2.1
      ⟨"nope", []⟩ (List.mem_cons_self _ _) rfl,
   (claim_C8 (ctxEmpty 0) { planned_tools := some witnessPlan } witnessPlan rfl).2.2.2
      "create_task" create_task_tool ⟨"create_task", [("title", Value.str "t")]⟩ rfl rfl⟩

/-- C9: every registered step of the assembled pipeline only adds or
overwrites state fields - whenever a step returns a state, every key present
in its input is present in its output. -/
theorem claim_C9 (ctx : NodeContext) :
    ∀ p ∈ (build_assistant_graph ctx).nodes, ∀ (s s' : GraphState), p.2 s = .ok s' →
      ∀ fld, present s fld = true → present s' fld = true := by
  intro p hp s s' hok fld hpres
  simp only [build_assistant_graph, List.mem_cons, List.not_mem_nil, or_false] at hp
  rcases hp with rfl|rfl|rfl|rfl|rfl|rfl|rfl|rfl|rfl|rfl|rfl|rfl|rfl|rfl|rfl|rfl|rfl|rfl
  · simp only [pureNode, Except.ok.injEq] at hok
    subst hok
    cases fld <;> simp_all [classify_interaction, present]
  · simp only [pureNode, Except.ok.injEq] at hok
    subst hok
    cases fld <;> simp_all [normalise_input, present]
  · simp only [pureNode, Except.ok.injEq] at hok
    subst hok
    cases fld <;> simp_all [detect_ingestion_type, present]
  · simp only [pureNode, Except.ok.injEq] at hok
    subst hok
    cases fld <;> simp_all [transform_for_storage, present]
  · have hok2 : write_memobase ctx s = Except.ok s' := hok
    cases hu : s.user_id with
    | none => rw [write_memobase_err ctx s hu] at hok2; exact absurd hok2 (by simp)
    | some uid =>
      rw [write_memobase_ok ctx s uid hu] at hok2
      simp only [Except.ok.injEq] at hok2
      subst hok2
      cases fld <;> simp_all [present]
  · simp only [write_vector_indexes, Except.ok.injEq] at hok
    subst hok
    exact hpres
  · simp only [write_graph, Except.ok.injEq] at hok
    subst hok
    exact hpres
  · simp only [pureNode, Except.ok.injEq] at hok
    subst hok
    cases fld <;> simp_all [classify_topic, present]
  · simp only [pureNode, Except.ok.injEq] at hok
    subst hok
    cases fld <;> simp_all [classify_intent, present]
  · simp only [pureNode, Except.ok.injEq] at hok
    subst hok
    cases fld <;> simp_all [route_retrieval, present]
  · simp only [guarded] at hok
    split at hok
    · cases hu : s.user_id with
      | none => simp [retrieve_memobase, hu] at hok
      | some uid =>
        simp only [retrieve_memobase, hu, Except.ok.injEq] at hok
        subst hok
        cases fld <;> simp_all [present]
    · simp only [Except.ok.injEq] at hok
      subst hok
      exact hpres
  · simp only [guarded] at hok
    split at hok
    · simp only [retrieve_vector, Except.ok.injEq] at hok
      subst hok
      cases fld <;> simp_all [present]
    · simp only [Except.ok.injEq] at hok
      subst hok
      exact hpres
  · simp only [guarded] at hok
    split at hok
    · simp only [retrieve_graph_pagerank, Except.ok.injEq] at hok
      subst hok
      cases fld <;> simp_all [present]
    · simp only [Except.ok.injEq] at hok
      subst hok
      exact hpres
  · simp only [pureNode, Except.ok.injEq] at hok
    subst hok
    cases fld <;> simp_all [rerank, present]
  · simp only [pureNode, Except.ok.injEq] at hok
    subst hok
    cases fld <;> simp_all [tool_planner, present]
  · simp only [run_tools, Except.ok.injEq] at hok
    subst hok
    cases fld <;> simp_all [present]
  · simp only [ingest_tool_results] at hok
    split at hok
    · simp only [Except.ok.injEq] at hok
      subst hok
      exact hpres
    · cases hu : s.user_id with
      | none => simp [hu] at hok
      | some uid =>
        simp only [hu, Except.ok.injEq] at hok
        subst hok
        exact hpres
  · simp only [pureNode, Except.ok.injEq] at hok
    subst hok
    cases fld <;> simp_all [generate_answer, present]

/-- Witness for C9 at a concrete node and state: the first registered step
keeps the concretely present query key present. -/
theorem claim_C9_witness :
    ("classify_interaction", pureNode classify_interaction) ∈ (build_assistant_graph (ctxEmpty 0)).nodes ∧
    pureNode classify_interaction { query := some "q" } = .ok (classify_interaction { query := some "q" }) ∧
    present { query := some "q" } .query = true ∧
    present (classify_interaction { query := some "q" }) .query = true :=
  ⟨List.mem_cons_self _ _, rfl, rfl,
   claim_C9 (ctxEmpty 0) _ (List.mem_cons_self _ _) _ _ rfl .query rfl⟩

theorem lookup_cons_self2 {β : Type} (k' : String) (p : String × β) (rest : List (String × β))
    (h : k' = p.1) : (p :: rest).lookup k' = some p.2 := by
  obtain ⟨a, b⟩ := p
  rw [List.lookup_cons, show (k' == a) = true from by rw [show k' = a from h]; exact beq_self_eq_true _]

theorem lookup_cons_ne2 {β : Type} (k' : String) (p : String × β) (rest : List (String × β))
    (h : k' ≠ p.1) : (p :: rest).lookup k' = rest.lookup k' := by
  obtain ⟨a, b⟩ := p
  rw [List.lookup_cons, show (k' == a) = false from by simpa [beq_eq_false_iff_ne] using h]

theorem ctrlEq_refl (s : GraphState) : ctrlEq s s :=
  ⟨rfl, rfl, rfl, rfl, rfl, rfl, rfl, rfl, rfl, rfl, rfl, rfl, rfl, rfl⟩

theorem nodesSim_lookup {n₁ n₂ : List (String × NodeFn)} (h : NodesSim n₁ n₂) (name : String) :
    (n₁.lookup name = none ∧ n₂.lookup name = none) ∨
    (∃ f₁ f₂, n₁.lookup name = some f₁ ∧ n₂.lookup name = some f₂ ∧ NodeSim f₁ f₂) := by
  induction h with
  | nil => exact .inl ⟨rfl, rfl⟩
  | @cons p q l₁ l₂ hpq hrest ih =>
    obtain ⟨k₁, f₁⟩ := p
    obtain ⟨k₂, f₂⟩ := q
    obtain ⟨hname, hsim⟩ := hpq
    have hk12 : k₁ = k₂ := hname
    subst hk12
    by_cases hk : name = k₁
    · right
      exact ⟨f₁, f₂, lookup_cons_self2 name (k₁, f₁) l₁ hk, lookup_cons_self2 name (k₁, f₂) l₂ hk, hsim⟩
    · rw [lookup_cons_ne2 name (k₁, f₁) l₁ hk, lookup_cons_ne2 name (k₁, f₂) l₂ hk]
      exact ih

theorem condSim_lookup {c₁ c₂ : List (String × CondEdge)} (h : CondSim c₁ c₂) (name : String) :
    (c₁.lookup name = none ∧ c₂.lookup name = none) ∨
    (∃ e₁ e₂, c₁.lookup name = some e₁ ∧ c₂.lookup name = some e₂ ∧
      e₁.mapping = e₂.mapping ∧ ∀ s₁ s₂, ctrlEq s₁ s₂ → e₁.router s₁ = e₂.router s₂) := by
  induction h with
  | nil => exact .inl ⟨rfl, rfl⟩
  | @cons p q l₁ l₂ hpq hrest ih =>
    obtain ⟨k₁, e₁⟩ := p
    obtain ⟨k₂, e₂⟩ := q
    obtain ⟨hname, hmap, hrt⟩ := hpq
    have hk12 : k₁ = k₂ := hname
    subst hk12
    by_cases hk : name = k₁
    · right
      exact ⟨e₁, e₂, lookup_cons_self2 name (k₁, e₁) l₁ hk, lookup_cons_self2 name (k₁, e₂) l₂ hk,
        hmap, hrt⟩
    · rw [lookup_cons_ne2 name (k₁, e₁) l₁ hk, lookup_cons_ne2 name (k₁, e₂) l₂ hk]
      exact ih

theorem ainvokeSpec_sim (g₁ g₂ : Graph) (fin : String)
    (hn : NodesSim g₁.nodes g₂.nodes) (he : g₁.edges = g₂.edges)
    (hcond : CondSim g₁.condEdges g₂.condEdges) :
    ∀ (fuel : Nat) (cur : Option String) (s₁ s₂ : GraphState) (tr : List String),
      ctrlEq s₁ s₂ →
      (ainvokeSpec g₁ fin fuel cur s₁ tr).2 = (ainvokeSpec g₂ fin fuel cur s₂ tr).2 := by
  intro fuel
  induction fuel with
  | zero => intro cur s₁ s₂ tr h; cases cur <;> rfl
  | succ fuel ih =>
    intro cur s₁ s₂ tr h
    cases cur with
    | none => rfl
    | some c =>
      by_cases hc0 : c = ""
      · simp [ainvokeSpec, hc0]
      · rcases nodesSim_lookup hn c with ⟨h1, h2⟩ | ⟨f₁, f₂, h1, h2, hsim⟩
        · simp [ainvokeSpec, hc0, h1, h2]
        · rcases hsim s₁ s₂ h with ⟨e, he₁, he₂⟩ | ⟨t₁, t₂, ho₁, ho₂, hct⟩
          · simp [ainvokeSpec, hc0, h1, h2, he₁, he₂]
          · rcases condSim_lookup hcond c with ⟨hc₁, hc₂⟩ | ⟨e₁, e₂, hc₁, hc₂, hmap, hrt⟩
            · simp only [ainvokeSpec, if_neg hc0, h1, h2, ho₁, ho₂, hc₁, hc₂, he]
              by_cases hfin : (((g₂.edges.lookup c).getD []).head?) = some fin
              · rw [if_pos hfin, if_pos hfin]
              · rw [if_neg hfin, if_neg hfin]
                exact ih _ _ _ _ hct
            · simp only [ainvokeSpec, if_neg hc0, h1, h2, ho₁, ho₂, hc₁, hc₂, hmap,
                hrt t₁ t₂ hct]
              by_cases hfin : ((e₂.mapping.lookup (e₂.router t₂)).join) = some fin
              · rw [if_pos hfin, if_pos hfin]
              · rw [if_neg hfin, if_neg hfin]
                exact ih _ _ _ _ hct

theorem retrieve_memobase_ok (ctx : NodeContext) (s : GraphState) (uid : String)
    (h : s.user_id = some uid) :
    retrieve_memobase ctx s =
      .ok { s with memobase_results := some ((ctx.memobaseSearch uid (s.query.getD "") s.primary_topic 5).map
        (fun hit => ⟨hit.content, hit.score, "memobase", hit.metadata⟩)) } := by
  simp [retrieve_memobase, h]

theorem nodeSim_classify_interaction : NodeSim (pureNode classify_interaction) (pureNode classify_interaction) := by
  intro s₁ s₂ h
  obtain ⟨h₁, h₂, h₃, h₄, h₅, h₆, h₇, h₈, h₉, h₁₀, h₁₁, h₁₂, h₁₃, h₁₄⟩ := h
  right
  refine ⟨_, _, rfl, rfl, ?_⟩
  simp [ctrlEq, classify_interaction, h₁, h₂, h₃, h₄, h₅, h₆, h₇, h₈, h₉, h₁₀, h₁₁, h₁₂, h₁₃, h₁₄]

theorem nodeSim_normalise_input : NodeSim (pureNode normalise_input) (pureNode normalise_input) := by
  intro s₁ s₂ h
  obtain ⟨h₁, h₂, h₃, h₄, h₅, h₆, h₇, h₈, h₉, h₁₀, h₁₁, h₁₂, h₁₃, h₁₄⟩ := h
  right
  refine ⟨_, _, rfl, rfl, ?_⟩
  simp [ctrlEq, normalise_input, h₁, h₂, h₃, h₄, h₅, h₆, h₇, h₈, h₉, h₁₀, h₁₁, h₁₂, h₁₃, h₁₄]

theorem nodeSim_detect_ingestion_type : NodeSim (pureNode detect_ingestion_type) (pureNode detect_ingestion_type) := by
  intro s₁ s₂ h
  obtain ⟨h₁, h₂, h₃, h₄, h₅, h₆, h₇, h₈, h₉, h₁₀, h₁₁, h₁₂, h₁₃, h₁₄⟩ := h
  right
  refine ⟨_, _, rfl, rfl, ?_⟩
  simp [ctrlEq, detect_ingestion_type, h₁, h₂, h₃, h₄, h₅, h₆, h₇, h₈, h₉, h₁₀, h₁₁, h₁₂, h₁₃, h₁₄]

theorem nodeSim_transform_for_storage (t₁ t₂ : Rat) :
    NodeSim (pureNode (transform_for_storage t₁)) (pureNode (transform_for_storage t₂)) := by
  intro s₁ s₂ h
  obtain ⟨h₁, h₂, h₃, h₄, h₅, h₆, h₇, h₈, h₉, h₁₀, h₁₁, h₁₂, h₁₃, h₁₄⟩ := h
  right
  refine ⟨_, _, rfl, rfl, ?_⟩
  simp [ctrlEq, transform_for_storage, h₁, h₂, h₃, h₄, h₅, h₆, h₇, h₈, h₉, h₁₀, h₁₁, h₁₂, h₁₃, h₁₄]

theorem nodeSim_write_memobase (ctx₁ ctx₂ : NodeContext) :
    NodeSim (write_memobase ctx₁) (write_memobase ctx₂) := by
  intro s₁ s₂ h
  obtain ⟨h₁, h₂, h₃, h₄, h₅, h₆, h₇, h₈, h₉, h₁₀, h₁₁, h₁₂, h₁₃, h₁₄⟩ := h
  cases hu : s₁.user_id with
  | none =>
    left
    exact ⟨"user_id", write_memobase_err ctx₁ s₁ hu, write_memobase_err ctx₂ s₂ (h₁ ▸ hu)⟩
  | some uid =>
    right
    refine ⟨_, _, write_memobase_ok ctx₁ s₁ uid hu, write_memobase_ok ctx₂ s₂ uid (h₁ ▸ hu), ?_⟩
    simp [ctrlEq, h₁, h₂, h₃, h₄, h₅, h₆, h₇, h₈, h₉, h₁₀, h₁₁, h₁₂, h₁₃, h₁₄]

theorem nodeSim_write_vector_indexes (ctx₁ ctx₂ : NodeContext) :
    NodeSim (write_vector_indexes ctx₁) (write_vector_indexes ctx₂) := by
  intro s₁ s₂ h
  exact .inr ⟨s₁, s₂, rfl, rfl, h⟩

theorem nodeSim_write_graph (ctx₁ ctx₂ : NodeContext) :
    NodeSim (write_graph ctx₁) (write_graph ctx₂) := by
  intro s₁ s₂ h
  exact .inr ⟨s₁, s₂, rfl, rfl, h⟩

theorem nodeSim_classify_topic : NodeSim (pureNode classify_topic) (pureNode classify_topic) := by
  intro s₁ s₂ h
  obtain ⟨h₁, h₂, h₃, h₄, h₅, h₆, h₇, h₈, h₉, h₁₀, h₁₁, h₁₂, h₁₃, h₁₄⟩ := h
  right
  refine ⟨_, _, rfl, rfl, ?_⟩
  simp [ctrlEq, classify_topic, h₁, h₂, h₃, h₄, h₅, h₆, h₇, h₈, h₉, h₁₀, h₁₁, h₁₂, h₁₃, h₁₄]

theorem nodeSim_classify_intent : NodeSim (pureNode classify_intent) (pureNode classify_intent) := by
  intro s₁ s₂ h
  obtain ⟨h₁, h₂, h₃, h₄, h₅, h₆, h₇, h₈, h₉, h₁₀, h₁₁, h₁₂, h₁₃, h₁₄⟩ := h
  right
  refine ⟨_, _, rfl, rfl, ?_⟩
  simp [ctrlEq, classify_intent, h₁, h₂, h₃, h₄, h₅, h₆, h₇, h₈, h₉, h₁₀, h₁₁, h₁₂, h₁₃, h₁₄]

theorem nodeSim_route_retrieval : NodeSim (pureNode route_retrieval) (pureNode route_retrieval) := by
  intro s₁ s₂ h
  obtain ⟨h₁, h₂, h₃, h₄, h₅, h₆, h₇, h₈, h₉, h₁₀, h₁₁, h₁₂, h₁₃, h₁₄⟩ := h
  right
  refine ⟨_, _, rfl, rfl, ?_⟩
  simp [ctrlEq, route_retrieval, h₁, h₂, h₃, h₄, h₅, h₆, h₇, h₈, h₉, h₁₀, h₁₁, h₁₂, h₁₃, h₁₄]

theorem nodeSim_retrieve_memobase (ctx₁ ctx₂ : NodeContext) :
    NodeSim (guarded (retrieve_memobase ctx₁) .need_memobase)
            (guarded (retrieve_memobase ctx₂) .need_memobase) := by
  intro s₁ s₂ h
  have hcopy := h
  obtain ⟨h₁, h₂, h₃, h₄, h₅, h₆, h₇, h₈, h₉, h₁₀, h₁₁, h₁₂, h₁₃, h₁₄⟩ := h
  have hfl : truthyAt s₂ .need_memobase = truthyAt s₁ .need_memobase := by
    simp [truthyAt, h₁₀]
  by_cases hb : truthyAt s₁ .need_memobase
  · have g₁ : guarded (retrieve_memobase ctx₁) .need_memobase s₁ = retrieve_memobase ctx₁ s₁ := by
      simp [guarded, hb]
    have g₂ : guarded (retrieve_memobase ctx₂) .need_memobase s₂ = retrieve_memobase ctx₂ s₂ := by
      simp [guarded, hfl, hb]
    cases hu : s₁.user_id with
    | none =>
      left
      refine ⟨"user_id", g₁.trans ?_, g₂.trans ?_⟩
      · simp [retrieve_memobase, hu]
      · simp [retrieve_memobase, h₁ ▸ hu]
    | some uid =>
      right
      refine ⟨_, _, g₁.trans (retrieve_memobase_ok ctx₁ s₁ uid hu),
        g₂.trans (retrieve_memobase_ok ctx₂ s₂ uid (h₁ ▸ hu)), ?_⟩
      simp [ctrlEq, h₁, h₂, h₃, h₄, h₅, h₆, h₇, h₈, h₉, h₁₀, h₁₁, h₁₂, h₁₃, h₁₄]
  · right
    refine ⟨s₁, s₂, by simp [guarded, hb], by simp [guarded, hfl, hb], hcopy⟩

theorem nodeSim_retrieve_vector (ctx₁ ctx₂ : NodeContext) :
    NodeSim (guarded (retrieve_vector ctx₁) .need_vector)
            (guarded (retrieve_vector ctx₂) .need_vector) := by
  intro s₁ s₂ h
  have hcopy := h
  obtain ⟨h₁, h₂, h₃, h₄, h₅, h₆, h₇, h₈, h₉, h₁₀, h₁₁, h₁₂, h₁₃, h₁₄⟩ := h
  have hfl : truthyAt s₂ .need_vector = truthyAt s₁ .need_vector := by
    simp [truthyAt, h₁₁]
  by_cases hb : truthyAt s₁ .need_vector
  · right
    refine ⟨_, _, by simp [guarded, hb]; exact rfl, by simp [guarded, hfl, hb]; exact rfl, ?_⟩
    simp [ctrlEq, retrieve_vector, h₁, h₂, h₃, h₄, h₅, h₆, h₇, h₈, h₉, h₁₀, h₁₁, h₁₂, h₁₃, h₁₄]
  · right
    refine ⟨s₁, s₂, by simp [guarded, hb], by simp [guarded, hfl, hb], hcopy⟩

theorem nodeSim_retrieve_graph_pagerank (ctx₁ ctx₂ : NodeContext) :
    NodeSim (guarded (retrieve_graph_pagerank ctx₁) .need_graph)
            (guarded (retrieve_graph_pagerank ctx₂) .need_graph) := by
  intro s₁ s₂ h
  have hcopy := h
  obtain ⟨h₁, h₂, h₃, h₄, h₅, h₆, h₇, h₈, h₉, h₁₀, h₁₁, h₁₂, h₁₃, h₁₄⟩ := h
  have hfl : truthyAt s₂ .need_graph = truthyAt s₁ .need_graph := by
    simp [truthyAt, h₁₂]
  by_cases hb : truthyAt s₁ .need_graph
  · right
    refine ⟨_, _, by simp [guarded, hb]; exact rfl, by simp [guarded, hfl, hb]; exact rfl, ?_⟩
    simp [ctrlEq, retrieve_graph_pagerank, h₁, h₂, h₃, h₄, h₅, h₆, h₇, h₈, h₉, h₁₀, h₁₁, h₁₂, h₁₃, h₁₄]
  · right
    refine ⟨s₁, s₂, by simp [guarded, hb], by simp [guarded, hfl, hb], hcopy⟩

theorem nodeSim_rerank : NodeSim (pureNode rerank) (pureNode rerank) := by
  intro s₁ s₂ h
  obtain ⟨h₁, h₂, h₃, h₄, h₅, h₆, h₇, h₈, h₉, h₁₀, h₁₁, h₁₂, h₁₃, h₁₄⟩ := h
  right
  refine ⟨_, _, rfl, rfl, ?_⟩
  simp [ctrlEq, rerank, h₁, h₂, h₃, h₄, h₅, h₆, h₇, h₈, h₉, h₁₀, h₁₁, h₁₂, h₁₃, h₁₄]

theorem nodeSim_tool_planner : NodeSim (pureNode tool_planner) (pureNode tool_planner) := by
  intro s₁ s₂ h
  obtain ⟨h₁, h₂, h₃, h₄, h₅, h₆, h₇, h₈, h₉, h₁₀, h₁₁, h₁₂, h₁₃, h₁₄⟩ := h
  right
  refine ⟨_, _, rfl, rfl, ?_⟩
  simp [ctrlEq, tool_planner, h₁, h₂, h₃, h₄, h₅, h₆, h₇, h₈, h₉, h₁₀, h₁₁, h₁₂, h₁₃, h₁₄]

theorem nodeSim_run_tools (ctx₁ ctx₂ : NodeContext) (htl : ctx₁.tools = ctx₂.tools) :
    NodeSim (run_tools ctx₁) (run_tools ctx₂) := by
  intro s₁ s₂ h
  obtain ⟨h₁, h₂, h₃, h₄, h₅, h₆, h₇, h₈, h₉, h₁₀, h₁₁, h₁₂, h₁₃, h₁₄⟩ := h
  right
  refine ⟨_, _, rfl, rfl, ?_⟩
  simp [ctrlEq, run_tools, htl, h₁, h₂, h₃, h₄, h₅, h₆, h₇, h₈, h₉, h₁₀, h₁₁, h₁₂, h₁₃, h₁₄]

theorem nodeSim_ingest_tool_results (ctx₁ ctx₂ : NodeContext) :
    NodeSim (ingest_tool_results ctx₁) (ingest_tool_results ctx₂) := by
  intro s₁ s₂ h
  have hcopy := h
  obtain ⟨h₁, h₂, h₃, h₄, h₅, h₆, h₇, h₈, h₉, h₁₀, h₁₁, h₁₂, h₁₃, h₁₄⟩ := h
  by_cases hres : (s₁.tool_results.getD []).isEmpty
  · right
    refine ⟨s₁, s₂, ?_, ?_, hcopy⟩
    · simp [ingest_tool_results, hres]
    · simp [ingest_tool_results, ← h₁₄, hres]
  · cases hu : s₁.user_id with
    | none =>
      left
      refine ⟨"user_id", ?_, ?_⟩
      · simp [ingest_tool_results, hres, hu]
      · simp [ingest_tool_results, ← h₁₄, hres, ← h₁, hu]
    | some uid =>
      right
      refine ⟨s₁, s₂, ?_, ?_, hcopy⟩
      · simp [ingest_tool_results, hres, hu]
      · simp [ingest_tool_results, ← h₁₄, hres, ← h₁, hu]

theorem nodeSim_generate_answer : NodeSim (pureNode generate_answer) (pureNode generate_answer) := by
  intro s₁ s₂ h
  obtain ⟨h₁, h₂, h₃, h₄, h₅, h₆, h₇, h₈, h₉, h₁₀, h₁₁, h₁₂, h₁₃, h₁₄⟩ := h
  right
  refine ⟨_, _, rfl, rfl, ?_⟩
  simp [ctrlEq, generate_answer, h₁, h₂, h₃, h₄, h₅, h₆, h₇, h₈, h₉, h₁₀, h₁₁, h₁₂, h₁₃, h₁₄]

theorem kindRouter_ctrlEq (s₁ s₂ : GraphState) (h : ctrlEq s₁ s₂) : kindRouter s₁ = kindRouter s₂ := by
  obtain ⟨h₁, h₂, h₃, h₄, h₅, h₆, h₇, h₈, h₉, h₁₀, h₁₁, h₁₂, h₁₃, h₁₄⟩ := h
  simp [kindRouter, h₄]

theorem nodesSim_build (ctx₁ ctx₂ : NodeContext) (htl : ctx₁.tools = ctx₂.tools) :
    NodesSim (build_assistant_graph ctx₁).nodes (build_assistant_graph ctx₂).nodes := by
  show List.Forall₂ _ _ _
  refine .cons ⟨rfl, nodeSim_classify_interaction⟩ ?_
  refine .cons ⟨rfl, nodeSim_normalise_input⟩ ?_
  refine .cons ⟨rfl, nodeSim_detect_ingestion_type⟩ ?_
  refine .cons ⟨rfl, nodeSim_transform_for_storage ctx₁.now ctx₂.now⟩ ?_
  refine .cons ⟨rfl, nodeSim_write_memobase ctx₁ ctx₂⟩ ?_
  refine .cons ⟨rfl, nodeSim_write_vector_indexes ctx₁ ctx₂⟩ ?_
  refine .cons ⟨rfl, nodeSim_write_graph ctx₁ ctx₂⟩ ?_
  refine .cons ⟨rfl, nodeSim_classify_topic⟩ ?_
  refine .cons ⟨rfl, nodeSim_classify_intent⟩ ?_
  refine .cons ⟨rfl, nodeSim_route_retrieval⟩ ?_
  refine .cons ⟨rfl, nodeSim_retrieve_memobase ctx₁ ctx₂⟩ ?_
  refine .cons ⟨rfl, nodeSim_retrieve_vector ctx₁ ctx₂⟩ ?_
  refine .cons ⟨rfl, nodeSim_retrieve_graph_pagerank ctx₁ ctx₂⟩ ?_
  refine .cons ⟨rfl, nodeSim_rerank⟩ ?_
  refine .cons ⟨rfl, nodeSim_tool_planner⟩ ?_
  refine .cons ⟨rfl, nodeSim_run_tools ctx₁ ctx₂ htl⟩ ?_
  refine .cons ⟨rfl, nodeSim_ingest_tool_results ctx₁ ctx₂⟩ ?_
  refine .cons ⟨rfl, nodeSim_generate_answer⟩ ?_
  exact .nil

theorem condSim_build (ctx₁ ctx₂ : NodeContext) :
    CondSim (build_assistant_graph ctx₁).condEdges (build_assistant_graph ctx₂).condEdges := by
  show List.Forall₂ _ _ _
  refine .cons ⟨rfl, rfl, kindRouter_ctrlEq⟩ ?_
  refine .cons ⟨rfl, rfl, kindRouter_ctrlEq⟩ ?_
  exact .nil

/-- C5 (amended): for every initial state and every deterministic
collaborator response family, two runs of the assembled pipeline execute the
identical step sequence even under different clock readings, and with
identical clock readings they produce identical final states.  (The
identical-clock assumption is what the counterexample forces: the clock
reading reaches the final state, so without it state equality fails.) -/
theorem claim_C5 (ms : String → String → Option String → Nat → List MemobaseHit)
    (rs : String → List String → Nat → List RagdollHit)
    (gq : String → List String → Nat → List RagdollHit)
    (tl : List (String × ToolFn)) (root : String) (hh : String → String)
    (t₁ t₂ : Rat) (s : GraphState) :
    (runPipeline ⟨ms, rs, gq, tl, root, t₁, hh⟩ s).2 =
      (runPipeline ⟨ms, rs, gq, tl, root, t₂, hh⟩ s).2 ∧
    (t₁ = t₂ → runPipeline ⟨ms, rs, gq, tl, root, t₁, hh⟩ s =
      runPipeline ⟨ms, rs, gq, tl, root, t₂, hh⟩ s) := by
  constructor
  · exact ainvokeSpec_sim (build_assistant_graph ⟨ms, rs, gq, tl, root, t₁, hh⟩)
      (build_assistant_graph ⟨ms, rs, gq, tl, root, t₂, hh⟩) END
      (nodesSim_build _ _ rfl) rfl (condSim_build _ _)
      runFuel (some "classify_interaction") s s [] (ctrlEq_refl s)
  · intro he
    subst he
    rfl

/-- Counterexample to C5 as stated: the same initial state and the same
collaborator responses, run at clock reading 0 and at clock reading 1,
produce different final states - the stored metadata carries
`created_at = time.time()`, 0 in one run and 1 in the other. -/
theorem claim_C5_counterexample :
    (runPipeline (ctxEmpty 0) (initScenarioB "tester")).1.acc ≠
      (runPipeline (ctxEmpty 1) (initScenarioB "tester")).1.acc ∧
    ((runPipeline (ctxEmpty 0) (initScenarioB "tester")).1.acc.metadata.getD []).lookup "created_at" =
      some (Value.num 0) ∧
    ((runPipeline (ctxEmpty 1) (initScenarioB "tester")).1.acc.metadata.getD []).lookup "created_at" =
      some (Value.num 1) := by
  refine ⟨?_, rfl, rfl⟩
  intro hcontra
  have h0 : ((runPipeline (ctxEmpty 0) (initScenarioB "tester")).1.acc.metadata.getD []).lookup "created_at" =
      some (Value.num 0) := rfl
  have h1 : ((runPipeline (ctxEmpty 1) (initScenarioB "tester")).1.acc.metadata.getD []).lookup "created_at" =
      some (Value.num 1) := rfl
  rw [hcontra] at h0
  have h2 := h0.symm.trans h1
  simp at h2

/-- Witness for C5 (amended): concretely, the runs at clocks 0 and 1 share
the step trace, and the equal-clock instance gives state equality. -/
theorem claim_C5_witness :
    (runPipeline (ctxEmpty 0) (initScenarioB "tester")).2 =
      (runPipeline (ctxEmpty 1) (initScenarioB "tester")).2 ∧
    runPipeline (ctxEmpty 0) (initScenarioB "tester") = runPipeline (ctxEmpty 0) (initScenarioB "tester") :=
  ⟨(claim_C5 (fun _ _ _ _ => []) (fun _ _ _ => []) (fun _ _ _ => []) default_tool_registry
      "daneel" (fun text => text) 0 1 (initScenarioB "tester")).1,
   (claim_C5 (fun _ _ _ _ => []) (fun _ _ _ => []) (fun _ _ _ => []) default_tool_registry
      "daneel" (fun text => text) 0 0 (initScenarioB "tester")).2 rfl⟩
